import Mathlib

/-!
Verification of the NX-TWEAKER dashboard script (src/script.js).

JS numbers are modelled as rationals. Math.round is modelled as
floor of q + 1/2 (JS rounds half toward positive infinity),
Math.max / Math.min as max / min on rationals, and toFixed(1) as
rounding to one decimal place. Randomness (Math.random deltas), the
availability of browser APIs (performance.memory, chrome.webview) and
the points at which a tick step may throw are all passed in explicitly
through an environment record, so every operation is a total function
on explicit state.
-/

/-- JS Math.round: round half toward positive infinity, i.e. the floor
of q + 1/2, written so that the kernel can evaluate it. -/
def jsRound (q : ℚ) : ℤ := (q + 1 / 2).num / ((q + 1 / 2).den : ℤ)

/-- JS Math.max. -/
def jsMax (a b : ℚ) : ℚ := max a b

/-- JS Math.min. -/
def jsMin (a b : ℚ) : ℚ := min a b

/-- The Math.max lo (Math.min hi v) pattern used throughout script.js. -/
def clamp (lo hi v : ℚ) : ℚ := jsMax lo (jsMin hi v)

/-- JS Number.prototype.toFixed(1), for the nonnegative values used here:
round to one decimal place. -/
def toFixed1 (q : ℚ) : ℚ := (jsRound (q * 10) : ℚ) / 10

/-- One metric's record in this.performanceData. Fields that a given
metric never uses keep their initial value 0. -/
structure MetricReading where
  usage : ℚ := 0
  used : ℚ := 0
  free : ℚ := 0
  total : ℚ := 0
  temp : ℚ := 0
  memory : ℚ := 0
  cores : ℚ := 0
  threads : ℚ := 0
  freq : ℚ := 0
deriving DecidableEq

/-- The five keys of this.performanceData. -/
inductive MetricName where
  | disk
  | gpu
  | proc
  | ram
  | cpu
deriving DecidableEq

/-- The performanceData object: one reading per metric key. -/
structure MetricSet where
  disk : MetricReading
  gpu : MetricReading
  proc : MetricReading
  ram : MetricReading
  cpu : MetricReading
deriving DecidableEq

/-- Field access performanceData[m]. -/
def MetricSet.get (s : MetricSet) : MetricName → MetricReading
  | .disk => s.disk
  | .gpu => s.gpu
  | .proc => s.proc
  | .ram => s.ram
  | .cpu => s.cpu

/-- Field update performanceData[m] = r. -/
def MetricSet.set (s : MetricSet) (m : MetricName) (r : MetricReading) : MetricSet :=
  match m with
  | .disk => { s with disk := r }
  | .gpu => { s with gpu := r }
  | .proc => { s with proc := r }
  | .ram => { s with ram := r }
  | .cpu => { s with cpu := r }

/-- The truthiness test if (this.performanceData[metric]): only the five
fixed keys name a metric object. -/
def metricOfString (name : String) : Option MetricName :=
  if name = "disk" then some .disk
  else if name = "gpu" then some .gpu
  else if name = "proc" then some .proc
  else if name = "ram" then some .ram
  else if name = "cpu" then some .cpu
  else none

/-- The fallback baseline written by initializeSimulatedData. -/
def initializeSimulatedData : MetricSet :=
  { disk := { usage := 78, used := 234, free := 66, total := 300 }
    gpu := { usage := 45, temp := 67, memory := 62 / 10 }
    proc := { usage := 32, cores := 8, threads := 16 }
    ram := { usage := 67, used := 107 / 10, total := 16 }
    cpu := { usage := 28, freq := 32 / 10, temp := 52 } }

/-- Environment of one refresh tick: the busy-loop outcome, the random
draws, which optional browser APIs respond, and at which step (if any)
an exception is thrown. A step that fails throws before mutating state;
updateUI failing is modelled by renderFails. -/
structure TickEnv where
  cpuRaw : ℚ := 0
  memAvailable : Bool := false
  memUsedGB : ℚ := 0
  gpuDelta : ℚ := 0
  procDelta : ℚ := 0
  diskChanges : Bool := false
  diskDelta : ℚ := 0
  fbGpu : ℚ := 0
  fbProc : ℚ := 0
  fbRam : ℚ := 0
  fbCpu : ℚ := 0
  cpuFails : Bool := false
  memFails : Bool := false
  simFails : Bool := false
  renderFails : Bool := false

/-- measureCPUUsage: clamp the busy-loop estimate to [0,100], smooth the
stored cpu usage with weights 0.7 / 0.3, round, and derive temp and freq
from the new usage. cpuRaw stands for (1 - efficiency) * 100. -/
def measureCPUUsage (env : TickEnv) (s : MetricSet) : MetricSet :=
  let estimatedUsage := clamp 0 100 env.cpuRaw
  let u : ℚ := (jsRound (s.cpu.usage * (7 / 10) + estimatedUsage * (3 / 10)) : ℚ)
  { s with cpu := { s.cpu with
      usage := u
      temp := (jsRound (35 + u * (4 / 10)) : ℚ)
      freq := toFixed1 (28 / 10 + u * (1 / 100)) } }

/-- measureMemoryUsage: when performance.memory responds, store the used
heap (in GB, to one decimal) and usage = round(used / ram.total * 100);
otherwise do nothing. -/
def measureMemoryUsage (env : TickEnv) (s : MetricSet) : MetricSet :=
  if env.memAvailable then
    let usedGB := env.memUsedGB
    { s with ram := { s.ram with
        used := toFixed1 usedGB
        usage := (jsRound (usedGB / s.ram.total * 100) : ℚ) } }
  else s

/-- simulateOtherMetrics: random-walk gpu within [20,90] and proc within
[15,85], each rounded, with gpu temp and memory derived from the new
usage; with probability 0.1 (diskChanges) nudge disk within [60,95] and
recompute used and free from the fixed total. -/
def simulateOtherMetrics (env : TickEnv) (s : MetricSet) : MetricSet :=
  let g : ℚ := (jsRound (clamp 20 90 (s.gpu.usage + env.gpuDelta)) : ℚ)
  let gpu' := { s.gpu with
      usage := g
      temp := (jsRound (45 + g * (1 / 2)) : ℚ)
      memory := toFixed1 (4 + g * (5 / 100)) }
  let p : ℚ := (jsRound (clamp 15 85 (s.proc.usage + env.procDelta)) : ℚ)
  let proc' := { s.proc with usage := p }
  let disk' :=
    if env.diskChanges then
      let d : ℚ := (jsRound (clamp 60 95 (s.disk.usage + env.diskDelta)) : ℚ)
      let used' : ℚ := (jsRound (d / 100 * s.disk.total) : ℚ)
      { s.disk with usage := d, used := used', free := s.disk.total - used' }
    else s.disk
  { s with gpu := gpu', proc := proc', disk := disk' }

/-- simulateAllMetrics: the catch-branch fallback. Every metric except
disk has its usage nudged by a random delta, clamped to [10,90] and
rounded; disk is left untouched. -/
def simulateAllMetrics (env : TickEnv) (s : MetricSet) : MetricSet :=
  let nudge : ℚ → ℚ → ℚ := fun u d => (jsRound (clamp 10 90 (u + d)) : ℚ)
  { s with
    gpu := { s.gpu with usage := nudge s.gpu.usage env.fbGpu }
    proc := { s.proc with usage := nudge s.proc.usage env.fbProc }
    ram := { s.ram with usage := nudge s.ram.usage env.fbRam }
    cpu := { s.cpu with usage := nudge s.cpu.usage env.fbCpu } }

/-- updatePerformanceMetrics: one refresh tick. The try block runs the
three measurement steps and then renders; if any of them (or the render)
throws, the catch block applies simulateAllMetrics to whatever state the
throw left behind and renders. The Bool records that updateUI ran. -/
def updatePerformanceMetrics (env : TickEnv) (s : MetricSet) : MetricSet × Bool :=
  if env.cpuFails then (simulateAllMetrics env s, true)
  else
    let s1 := measureCPUUsage env s
    if env.memFails then (simulateAllMetrics env s1, true)
    else
      let s2 := measureMemoryUsage env s1
      if env.simFails then (simulateAllMetrics env s2, true)
      else
        let s3 := simulateOtherMetrics env s2
        if env.renderFails then (simulateAllMetrics env s3, true)
        else (s3, true)

/-- updateStatusIndicator: the background colour written to the metric
card's status indicator, as a function of usage. -/
def statusBackground (usage : ℚ) : String :=
  if usage > 80 then "#ff4444"
  else if usage > 60 then "#ffaa00"
  else "var(--primary-red)"

/-- updateUI renders each stored usage verbatim as percentage text and
fill-bar width; this is the list of rendered usage values. -/
def renderedUsages (s : MetricSet) : List ℚ :=
  [s.disk.usage, s.gpu.usage, s.proc.usage, s.ram.usage, s.cpu.usage]

/-- updateMetric(metric, value): when the key names one of the five
metrics, store the value clamped to [0,100] as its usage and call
updateUI (Bool = rendered); otherwise do nothing. -/
def updateMetric (s : MetricSet) (metric : String) (value : ℚ) : MetricSet × Bool :=
  match metricOfString metric with
  | some m => (s.set m { s.get m with usage := jsMax 0 (jsMin 100 value) }, true)
  | none => (s, false)

/-- window.updatePerformanceMetric: forwards to updateMetric when the
dashboard object exists. -/
def windowUpdatePerformanceMetric (dash : Option MetricSet) (metric : String) (value : ℚ) :
    Option MetricSet × Bool :=
  match dash with
  | some s =>
      let r := updateMetric s metric value
      (some r.1, r.2)
  | none => (none, false)

/-- A possibly-partial reading pushed by the host: the fields present in
data[metric]. -/
structure PartialReading where
  usage : Option ℚ := none
  used : Option ℚ := none
  free : Option ℚ := none
  total : Option ℚ := none
  temp : Option ℚ := none
  memory : Option ℚ := none
  cores : Option ℚ := none
  threads : Option ℚ := none
  freq : Option ℚ := none
deriving DecidableEq

/-- Object.assign(target, p): every field present in p overwrites the
target's field, absent fields are kept. -/
def mergeReading (r : MetricReading) (p : PartialReading) : MetricReading :=
  { usage := p.usage.getD r.usage
    used := p.used.getD r.used
    free := p.free.getD r.free
    total := p.total.getD r.total
    temp := p.temp.getD r.temp
    memory := p.memory.getD r.memory
    cores := p.cores.getD r.cores
    threads := p.threads.getD r.threads
    freq := p.freq.getD r.freq }

/-- window.updateDashboard(data): for each key of data in order, if it
names a live metric, Object.assign its fields into that metric; then
call updateUI. Keys that name no metric are skipped. -/
def updateDashboard (s : MetricSet) (data : List (String × PartialReading)) :
    MetricSet × Bool :=
  let s' := data.foldl
    (fun acc kv =>
      match metricOfString kv.1 with
      | some m => acc.set m (mergeReading (acc.get m) kv.2)
      | none => acc)
    s
  (s', true)

/-- Remove the active class from every element of a nav-button or page
list (elements carry their identifier and their active flag). -/
def deactivateAll (xs : List (String × Bool)) : List (String × Bool) :=
  xs.map (fun p => (p.1, false))

/-- document.querySelector succeeds: some element carries identifier t. -/
def existsId (xs : List (String × Bool)) (t : String) : Bool :=
  xs.any (fun p => p.1 == t)

/-- classList.add("active") on the first element whose identifier is t
(document.querySelector returns the first match). -/
def activateFirst (xs : List (String × Bool)) (t : String) : List (String × Bool) :=
  match xs with
  | [] => []
  | (i, a) :: rest =>
      if i == t then (i, true) :: rest
      else (i, a) :: activateFirst rest t

/-- switchPage(targetPage, navButtons, pages): strip active from every
button and every page, then, only if both a button and a page with the
target identifier exist, mark that pair active. -/
def switchPage (t : String) (btns pages : List (String × Bool)) :
    List (String × Bool) × List (String × Bool) :=
  let btns' := deactivateAll btns
  let pages' := deactivateAll pages
  if existsId btns t && existsId pages t then
    (activateFirst btns' t, activateFirst pages' t)
  else (btns', pages')

/-- Number of elements carrying the active class. -/
def countActive (xs : List (String × Bool)) : Nat :=
  (xs.filter (fun p => p.2)).length

/-- One addEventListener("click", ...) registration on an action or mod
control: the control's tag attribute and value, the string posted to
chrome.webview, and whether the handler's else branch logs when the
channel is absent. -/
structure ActionHandler where
  attr : String
  value : String
  message : String
  logsWhenUnavailable : Bool
deriving DecidableEq

/-- Every click-handler registration of script.js after the dashboard
class, in source order. -/
def actionHandlers : List ActionHandler :=
  [ { attr := "data-action", value := "full-clean", message := "full-clean", logsWhenUnavailable := true }
  , { attr := "data-action", value := "clean-ram", message := "clean-ram", logsWhenUnavailable := true }
  , { attr := "data-action", value := "full-clean", message := "full-clean", logsWhenUnavailable := false }
  , { attr := "data-action", value := "clean-ram", message := "clean-ram", logsWhenUnavailable := false }
  , { attr := "data-action", value := "ip-flush", message := "ip-flush", logsWhenUnavailable := false }
  , { attr := "data-action", value := "reset-firewall", message := "reset-firewall", logsWhenUnavailable := false }
  , { attr := "data-action", value := "clear-temp", message := "clear-temp", logsWhenUnavailable := false }
  , { attr := "data-action", value := "kill-emulator", message := "kill-emulator", logsWhenUnavailable := false }
  , { attr := "data-action", value := "fix-98", message := "fix-98", logsWhenUnavailable := false }
  , { attr := "data-action", value := "environment-fix", message := "environment-fix", logsWhenUnavailable := false }
  , { attr := "data-mod", value := "super-smooth", message := "super-smooth", logsWhenUnavailable := false }
  , { attr := "data-mod", value := "ultra-hd", message := "ultra-hd", logsWhenUnavailable := false }
  , { attr := "data-mod", value := "hdr", message := "hdr", logsWhenUnavailable := false }
  , { attr := "data-mod", value := "smooth", message := "smooth", logsWhenUnavailable := false }
  , { attr := "data-mod", value := "t-box-speed", message := "t-box-speed", logsWhenUnavailable := false }
  , { attr := "data-action", value := "park-control", message := "park-control", logsWhenUnavailable := false }
  , { attr := "data-action", value := "timer-resolution", message := "timer-resolution", logsWhenUnavailable := false }
  , { attr := "data-action", value := "cru", message := "cru", logsWhenUnavailable := false }
  , { attr := "data-action", value := "filterkeys", message := "filterkeys", logsWhenUnavailable := false }
  , { attr := "data-action", value := "optimized-tweak", message := "optimized-tweak", logsWhenUnavailable := false }
  , { attr := "data-action", value := "debloat", message := "debloat", logsWhenUnavailable := false }
  , { attr := "data-action", value := "control-panel", message := "control-panel", logsWhenUnavailable := false }
  , { attr := "data-action", value := "visual-effects", message := "visual-effects", logsWhenUnavailable := false }
  , { attr := "data-action", value := "msconfig", message := "msconfig", logsWhenUnavailable := false }
  , { attr := "data-action", value := "windows-update-blocker", message := "windows-update-blocker", logsWhenUnavailable := false }
  , { attr := "data-action", value := "defender-control", message := "defender-control", logsWhenUnavailable := false }
  , { attr := "data-action", value := "nx-script", message := "nx-script", logsWhenUnavailable := false }
  , { attr := "data-action", value := "basic", message := "basic", logsWhenUnavailable := false }
  , { attr := "data-action", value := "advanced", message := "advanced", logsWhenUnavailable := false }
  , { attr := "data-action", value := "ultimate", message := "ultimate", logsWhenUnavailable := false }
  , { attr := "data-action", value := "windows-10-activation", message := "windows-10-activation", logsWhenUnavailable := false }
  , { attr := "data-action", value := "basicF", message := "basicF", logsWhenUnavailable := false }
  , { attr := "data-action", value := "advancedF", message := "advancedF", logsWhenUnavailable := false }
  , { attr := "data-action", value := "ultimateF", message := "ultimateF", logsWhenUnavailable := false }
  , { attr := "data-action", value := "commend", message := "commend", logsWhenUnavailable := false }
  , { attr := "data-action", value := "cleanF", message := "cleanF", logsWhenUnavailable := false } ]

/-- Clicking the control tagged attr=value: every handler registered on
it fires in registration order. When window.chrome.webview exists each
firing posts its message; otherwise nothing is posted and each handler
with an else branch logs once. Result: (posted messages, log count). -/
def clickControl (channelAvailable : Bool) (attr value : String) : List String × Nat :=
  let hs := actionHandlers.filter (fun h => h.attr == attr && h.value == value)
  if channelAvailable then (hs.map (fun h => h.message), 0)
  else ([], (hs.filter (fun h => h.logsWhenUnavailable)).length)

/-- A usage value as the spec's invariant demands it: a whole number
between 0 and 100. -/
def usageOk (q : ℚ) : Prop := q.den = 1 ∧ 0 ≤ q ∧ q ≤ 100

instance (q : ℚ) : Decidable (usageOk q) := by
  unfold usageOk
  infer_instance

/-- The invariant claimed for the whole MetricSet. -/
def usageInv (s : MetricSet) : Prop :=
  usageOk s.disk.usage ∧ usageOk s.gpu.usage ∧ usageOk s.proc.usage ∧
    usageOk s.ram.usage ∧ usageOk s.cpu.usage

instance (s : MetricSet) : Decidable (usageInv s) := by
  unfold usageInv
  infer_instance

/-- Spec-side smoothing formula, written exactly as the spec words it:
new value equals round(0.7 * P + 0.3 * E). -/
def spec_cpuSmoothed (P E : ℚ) : ℚ := (jsRound (7 / 10 * P + 3 / 10 * E) : ℚ)

/-- A rendered or stored value is a whole number. -/
def isWhole (q : ℚ) : Prop := q.den = 1

theorem jsRound_eq_floor (q : ℚ) : jsRound q = Int.floor (q + 1 / 2) := by
  rw [jsRound, Rat.floor_def]

theorem le_jsRound (a : ℤ) (q : ℚ) (h : (a : ℚ) ≤ q) : a ≤ jsRound q := by
  rw [jsRound_eq_floor]
  refine Int.le_floor.mpr ?_
  linarith

theorem jsRound_le (b : ℤ) (q : ℚ) (h : q ≤ (b : ℚ)) : jsRound q ≤ b := by
  rw [jsRound_eq_floor]
  have h2 : (q + 1 / 2 : ℚ) < ((b : ℚ) + 1) := by linarith
  have h3 := Int.floor_lt.mpr (by push_cast; linarith : (q + 1 / 2 : ℚ) < ((b + 1 : ℤ) : ℚ))
  omega

theorem clamp_bounds (lo hi x : ℚ) (h : lo ≤ hi) :
    lo ≤ clamp lo hi x ∧ clamp lo hi x ≤ hi := by
  unfold clamp jsMax jsMin
  exact ⟨le_max_left _ _, max_le h (min_le_left _ _)⟩

theorem round_clamp_band (lo hi : ℤ) (x : ℚ) (hlh : lo ≤ hi) :
    ((jsRound (clamp (lo : ℚ) (hi : ℚ) x) : ℤ) : ℚ).den = 1
    ∧ (lo : ℚ) ≤ ((jsRound (clamp (lo : ℚ) (hi : ℚ) x) : ℤ) : ℚ)
    ∧ ((jsRound (clamp (lo : ℚ) (hi : ℚ) x) : ℤ) : ℚ) ≤ (hi : ℚ) := by
  have hb := clamp_bounds (lo : ℚ) (hi : ℚ) x (by exact_mod_cast hlh)
  refine ⟨Rat.den_intCast _, ?_, ?_⟩
  · exact_mod_cast le_jsRound lo _ hb.1
  · exact_mod_cast jsRound_le hi _ hb.2

theorem usageOk_round_clamp (lo hi : ℤ) (x : ℚ) (h0 : 0 ≤ lo) (hlh : lo ≤ hi) (h1 : hi ≤ 100) :
    usageOk ((jsRound (clamp (lo : ℚ) (hi : ℚ) x) : ℤ) : ℚ) := by
  obtain ⟨hden, ha, hb⟩ := round_clamp_band lo hi x hlh
  refine ⟨hden, le_trans ?_ ha, le_trans hb ?_⟩
  · exact_mod_cast h0
  · exact_mod_cast h1

theorem usageOk_jsRound (q : ℚ) (h0 : 0 ≤ q) (h1 : q ≤ 100) :
    usageOk ((jsRound q : ℤ) : ℚ) := by
  refine ⟨Rat.den_intCast _, ?_, ?_⟩
  · exact_mod_cast le_jsRound 0 q (by exact_mod_cast h0)
  · exact_mod_cast jsRound_le 100 q (by exact_mod_cast h1)

theorem measureCPUUsage_disk (env : TickEnv) (s : MetricSet) :
    (measureCPUUsage env s).disk = s.disk := rfl

theorem measureCPUUsage_cpu_usage (env : TickEnv) (s : MetricSet) :
    (measureCPUUsage env s).cpu.usage
      = ((jsRound (s.cpu.usage * (7 / 10) + clamp 0 100 env.cpuRaw * (3 / 10)) : ℤ) : ℚ) := rfl

theorem measureMemoryUsage_of_none (env : TickEnv) (s : MetricSet)
    (hm : env.memAvailable = false) : measureMemoryUsage env s = s := by
  simp [measureMemoryUsage, hm]

theorem measureMemoryUsage_cpu (env : TickEnv) (s : MetricSet) :
    (measureMemoryUsage env s).cpu = s.cpu := by
  unfold measureMemoryUsage
  split <;> rfl

theorem measureMemoryUsage_disk (env : TickEnv) (s : MetricSet) :
    (measureMemoryUsage env s).disk = s.disk := by
  unfold measureMemoryUsage
  split <;> rfl

theorem simulateOtherMetrics_cpu (env : TickEnv) (s : MetricSet) :
    (simulateOtherMetrics env s).cpu = s.cpu := rfl

theorem simulateOtherMetrics_ram (env : TickEnv) (s : MetricSet) :
    (simulateOtherMetrics env s).ram = s.ram := rfl

theorem simulateAllMetrics_disk (env : TickEnv) (s : MetricSet) :
    (simulateAllMetrics env s).disk = s.disk := rfl

theorem usageInv_measureCPUUsage (env : TickEnv) (s : MetricSet) (h : usageInv s) :
    usageInv (measureCPUUsage env s) := by
  obtain ⟨hd, hg, hp, hr, hc⟩ := h
  refine ⟨hd, hg, hp, hr, ?_⟩
  show usageOk ((jsRound (s.cpu.usage * (7 / 10) + clamp 0 100 env.cpuRaw * (3 / 10)) : ℤ) : ℚ)
  have hcb := clamp_bounds 0 100 env.cpuRaw (by norm_num)
  refine usageOk_jsRound _ ?_ ?_
  · nlinarith [hc.2.1, hcb.1]
  · nlinarith [hc.2.2, hcb.2]

theorem usageInv_simulateOtherMetrics (env : TickEnv) (s : MetricSet) (h : usageInv s) :
    usageInv (simulateOtherMetrics env s) := by
  obtain ⟨hd, hg, hp, hr, hc⟩ := h
  refine ⟨?_, ?_, ?_, hr, hc⟩
  · show usageOk (if env.diskChanges then _ else s.disk).usage
    cases hdc : env.diskChanges
    · simpa [hdc] using hd
    · simp only [hdc, if_true]
      exact_mod_cast usageOk_round_clamp 60 95 _ (by norm_num) (by norm_num) (by norm_num)
  · show usageOk ((jsRound (clamp 20 90 (s.gpu.usage + env.gpuDelta)) : ℤ) : ℚ)
    exact_mod_cast usageOk_round_clamp 20 90 _ (by norm_num) (by norm_num) (by norm_num)
  · show usageOk ((jsRound (clamp 15 85 (s.proc.usage + env.procDelta)) : ℤ) : ℚ)
    exact_mod_cast usageOk_round_clamp 15 85 _ (by norm_num) (by norm_num) (by norm_num)

theorem usageInv_simulateAllMetrics (env : TickEnv) (s : MetricSet)
    (hd : usageOk s.disk.usage) : usageInv (simulateAllMetrics env s) := by
  refine ⟨hd, ?_, ?_, ?_, ?_⟩ <;>
    exact_mod_cast usageOk_round_clamp 10 90 _ (by norm_num) (by norm_num) (by norm_num)

theorem usageInv_tick (env : TickEnv) (s : MetricSet)
    (hm : env.memAvailable = false) (h : usageInv s) :
    usageInv (updatePerformanceMetrics env s).1 := by
  by_cases h1 : env.cpuFails = true
  · simp only [updatePerformanceMetrics, h1, if_true]
    exact usageInv_simulateAllMetrics env s h.1
  · have hcpu := usageInv_measureCPUUsage env s h
    by_cases h2 : env.memFails = true
    · simp only [updatePerformanceMetrics, h1, h2, if_true, if_false, Bool.false_eq_true]
      exact usageInv_simulateAllMetrics env _ hcpu.1
    · rw [updatePerformanceMetrics]
      simp only [h1, h2, Bool.false_eq_true, if_false]
      rw [measureMemoryUsage_of_none env _ hm]
      have hsim := usageInv_simulateOtherMetrics env _ hcpu
      by_cases h3 : env.simFails = true
      · simp only [h3, if_true]
        exact usageInv_simulateAllMetrics env _ hcpu.1
      · simp only [h3, Bool.false_eq_true, if_false]
        by_cases h4 : env.renderFails = true
        · simp only [h4, if_true]
          exact usageInv_simulateAllMetrics env _ hsim.1
        · simp only [h4, Bool.false_eq_true, if_false]
          exact hsim

theorem get_set_eq (s : MetricSet) (m : MetricName) (r : MetricReading) :
    (s.set m r).get m = r := by
  cases m <;> rfl

theorem get_set_ne (s : MetricSet) (m m' : MetricName) (r : MetricReading)
    (h : m' ≠ m) : (s.set m r).get m' = s.get m' := by
  cases m <;> cases m' <;> first
    | exact absurd rfl h
    | rfl

theorem mem_deactivateAll (xs : List (String × Bool)) (p : String × Bool)
    (hp : p ∈ deactivateAll xs) : p.2 = false := by
  induction xs with
  | nil => simp [deactivateAll] at hp
  | cons x rest ih =>
      simp only [deactivateAll, List.map_cons, List.mem_cons] at hp
      rcases hp with h | h
      · rw [h]
      · exact ih (by simpa [deactivateAll] using h)

theorem countActive_eq_zero (xs : List (String × Bool))
    (hall : ∀ p ∈ xs, p.2 = false) : countActive xs = 0 := by
  induction xs with
  | nil => rfl
  | cons x rest ih =>
      have hx := hall x (List.mem_cons_self x rest)
      rw [countActive, List.filter_cons, hx]
      exact ih fun p hp => hall p (List.mem_cons_of_mem x hp)

theorem existsId_deactivateAll (xs : List (String × Bool)) (t : String) :
    existsId (deactivateAll xs) t = existsId xs t := by
  induction xs with
  | nil => rfl
  | cons x rest ih => simp [existsId, deactivateAll] at ih ⊢ ; rw [ih]

theorem existsId_activateFirst (xs : List (String × Bool)) (t u : String) :
    existsId (activateFirst xs t) u = existsId xs u := by
  induction xs with
  | nil => rfl
  | cons x rest ih =>
      obtain ⟨i, a⟩ := x
      rw [activateFirst]
      by_cases hx : i == t
      · simp only [hx, if_true, existsId, List.any_cons]
      · simp only [hx, if_false, existsId, List.any_cons, Bool.false_eq_true]
        rw [show (activateFirst rest t).any (fun p => p.1 == u) = existsId (activateFirst rest t) u from rfl,
          ih]
        rfl

theorem deactivateAll_activateFirst (xs : List (String × Bool)) (t : String) :
    deactivateAll (activateFirst xs t) = deactivateAll xs := by
  induction xs with
  | nil => rfl
  | cons x rest ih =>
      obtain ⟨i, a⟩ := x
      rw [activateFirst]
      by_cases hx : i == t
      · simp only [hx, if_true, deactivateAll, List.map_cons]
      · simp only [hx, if_false, Bool.false_eq_true, deactivateAll, List.map_cons]
        rw [show (activateFirst rest t).map (fun p => (p.1, false)) = deactivateAll (activateFirst rest t) from rfl,
          ih]
        rfl

theorem deactivateAll_idem (xs : List (String × Bool)) :
    deactivateAll (deactivateAll xs) = deactivateAll xs := by
  induction xs with
  | nil => rfl
  | cons x rest ih =>
      simp only [deactivateAll, List.map_cons] at ih ⊢
      rw [show (rest.map fun p => (p.1, false)).map (fun p => (p.1, false))
            = deactivateAll (deactivateAll rest) from rfl] at ih ⊢
      rw [ih]

theorem countActive_activateFirst (xs : List (String × Bool)) (t : String)
    (hall : ∀ p ∈ xs, p.2 = false) (hex : existsId xs t = true) :
    countActive (activateFirst xs t) = 1 := by
  induction xs with
  | nil => simp [existsId] at hex
  | cons x rest ih =>
      obtain ⟨i, a⟩ := x
      rw [activateFirst]
      by_cases hx : i == t
      · simp only [hx, if_true]
        have hz : (rest.filter (fun p => p.2)).length = 0 := by
          have := countActive_eq_zero rest fun p hp => hall p (List.mem_cons_of_mem _ hp)
          simpa [countActive] using this
        simp [countActive, List.filter_cons, hz]
      · simp only [hx, if_false, Bool.false_eq_true]
        have ha : a = false := hall (i, a) (List.mem_cons_self _ _)
        rw [countActive, List.filter_cons, ha]
        have hex2 : existsId rest t = true := by
          simp only [existsId, List.any_cons, hx, Bool.false_or] at hex
          exact hex
        have := ih (fun p hp => hall p (List.mem_cons_of_mem _ hp)) hex2
        rw [countActive] at this
        simpa using this

theorem active_of_activateFirst (xs : List (String × Bool)) (t : String)
    (hall : ∀ p ∈ xs, p.2 = false) :
    ∀ p ∈ activateFirst xs t, p.2 = true → p.1 = t := by
  induction xs with
  | nil => intro p hp; simp [activateFirst] at hp
  | cons x rest ih =>
      obtain ⟨i, a⟩ := x
      intro p hp htrue
      rw [activateFirst] at hp
      by_cases hx : i == t
      · simp only [hx, if_true, List.mem_cons] at hp
        rcases hp with h | h
        · rw [h]
          exact (beq_iff_eq).mp hx
        · exact absurd htrue (by simp [hall p (List.mem_cons_of_mem _ h)])
      · simp only [hx, if_false, Bool.false_eq_true, List.mem_cons] at hp
        rcases hp with h | h
        · have ha : a = false := hall (i, a) (List.mem_cons_self _ _)
          subst h
          simp [ha] at htrue
        · exact ih (fun q hq => hall q (List.mem_cons_of_mem _ hq)) p h htrue

/-- C1 counterexample: window.updateDashboard performs a raw field merge
with no clamping and no rounding, so pushing cpu usage 150 stores (and
subsequently renders) 150, which is greater than 100 — the claimed
[0,100] invariant does not survive updateDashboard. -/
theorem C1_counterexample :
    (updateDashboard initializeSimulatedData [("cpu", { usage := some 150 })]).1.cpu.usage = 150
    ∧ 100 <
        (updateDashboard initializeSimulatedData [("cpu", { usage := some 150 })]).1.cpu.usage
    ∧ (updateDashboard initializeSimulatedData [("cpu", { usage := some 150 })]).2 = true := by
  refine ⟨by decide, by decide, by decide⟩

/-- C1 (amended): after any refresh tick — normal or fallback path —
run while the heap reading is unavailable, every stored usage is a whole
number in [0,100] provided it was before; and updatePerformanceMetric
stores exactly the clamped value max(0, min(100, v)), which lies in
[0,100] (though it is not rounded). The invariant does not extend to
window.updateDashboard, which merges raw values unchanged. -/
theorem C1_invariant_amended (env : TickEnv) (s : MetricSet) (metric : String) (v : ℚ)
    (m : MetricName) :
    (env.memAvailable = false → usageInv s →
      usageInv (updatePerformanceMetrics env s).1)
    ∧ (metricOfString metric = some m →
        ((updateMetric s metric v).1.get m).usage = jsMax 0 (jsMin 100 v)
        ∧ 0 ≤ ((updateMetric s metric v).1.get m).usage
        ∧ ((updateMetric s metric v).1.get m).usage ≤ 100) := by
  constructor
  · intro hm h
    exact usageInv_tick env s hm h
  · intro h
    have heq : ((updateMetric s metric v).1.get m).usage = jsMax 0 (jsMin 100 v) := by
      simp only [updateMetric, h]
      rw [get_set_eq]
    refine ⟨heq, ?_, ?_⟩
    · rw [heq]
      exact le_max_left _ _
    · rw [heq]
      exact max_le (by norm_num) (min_le_left _ _)

/-- C1 witness: the amended invariant evaluated at the simulated
baseline with a concrete tick environment, and the clamp evaluated at
updatePerformanceMetric("cpu", 150). -/
theorem C1_witness :
    usageInv (updatePerformanceMetrics { cpuRaw := 50 } initializeSimulatedData).1
    ∧ ((updateMetric initializeSimulatedData "cpu" 150).1.get MetricName.cpu).usage
        = jsMax 0 (jsMin 100 150) :=
  ⟨(C1_invariant_amended { cpuRaw := 50 } initializeSimulatedData "cpu" 150 MetricName.cpu).1
      rfl (by decide),
   ((C1_invariant_amended { cpuRaw := 50 } initializeSimulatedData "cpu" 150 MetricName.cpu).2
      (by decide)).1⟩

/-- C2 counterexample: with one active button and one active page, a
click on the unknown identifier "settings" deactivates both — the count
of active buttons drops from 1 to 0 — so the click is not a no-op. -/
theorem C2_counterexample :
    switchPage "settings" [("home", true)] [("home", true)]
      = ([("home", false)], [("home", false)])
    ∧ countActive [("home", true)] = 1
    ∧ countActive (switchPage "settings" [("home", true)] [("home", true)]).1 = 0
    ∧ countActive (switchPage "settings" [("home", true)] [("home", true)]).2 = 0 := by
  refine ⟨by decide, by decide, by decide, by decide⟩

/-- C2 (amended): a navigation click whose identifier matches no button
or no page is not a no-op: it removes the active status from every
button and every page and activates nothing, leaving no element active.
It coincides with a no-op only when nothing was active beforehand. -/
theorem C2_unknown_id_amended (t : String) (btns pages : List (String × Bool))
    (h : (existsId btns t && existsId pages t) = false) :
    switchPage t btns pages = (deactivateAll btns, deactivateAll pages)
    ∧ (∀ p ∈ (switchPage t btns pages).1, p.2 = false)
    ∧ (∀ p ∈ (switchPage t btns pages).2, p.2 = false) := by
  have hbr : switchPage t btns pages = (deactivateAll btns, deactivateAll pages) := by
    simp [switchPage, h]
  refine ⟨hbr, ?_, ?_⟩
  · rw [hbr]
    exact fun p hp => mem_deactivateAll btns p hp
  · rw [hbr]
    exact fun p hp => mem_deactivateAll pages p hp

/-- C2 witness: the amended statement evaluated on a concrete one-button
view with an unknown target identifier. -/
theorem C2_witness :
    switchPage "settings" [("home", false), ("perf", true)] [("home", false), ("perf", true)]
      = ([("home", false), ("perf", false)], [("home", false), ("perf", false)]) :=
  (C2_unknown_id_amended "settings" [("home", false), ("perf", true)]
      [("home", false), ("perf", true)] (by decide)).1

/-- C3: the status indicator colour is the high colour exactly on
(80,100], the medium colour exactly on (60,80] and the normal colour on
[0,60]; the boundary values map to the lower band: 80 is medium, not
high, and 60 is normal, not medium. -/
theorem C3_status_thresholds (u : ℚ) :
    (80 < u → u ≤ 100 → statusBackground u = "#ff4444")
    ∧ (60 < u → u ≤ 80 → statusBackground u = "#ffaa00")
    ∧ (0 ≤ u → u ≤ 60 → statusBackground u = "var(--primary-red)")
    ∧ statusBackground 80 = "#ffaa00"
    ∧ statusBackground 60 = "var(--primary-red)" := by
  refine ⟨?_, ?_, ?_, by decide, by decide⟩
  · intro h1 _
    simp only [statusBackground, if_pos h1]
  · intro h1 h2
    have hn : ¬(80 < u) := not_lt.mpr h2
    simp only [statusBackground, if_neg hn, if_pos h1]
  · intro _ h2
    have hn1 : ¬(80 < u) := not_lt.mpr (by linarith)
    have hn2 : ¬(60 < u) := not_lt.mpr h2
    simp only [statusBackground, if_neg hn1, if_neg hn2]

/-- C3 witness: the three bands evaluated at 90, 70 and 30. -/
theorem C3_witness :
    statusBackground 90 = "#ff4444"
    ∧ statusBackground 70 = "#ffaa00"
    ∧ statusBackground 30 = "var(--primary-red)" :=
  ⟨(C3_status_thresholds 90).1 (by norm_num) (by norm_num),
   (C3_status_thresholds 70).2.1 (by norm_num) (by norm_num),
   (C3_status_thresholds 30).2.2.1 (by norm_num) (by norm_num)⟩

/-- C4: for a known metric name, window.updatePerformanceMetric stores
max(0, min(100, v)) as that metric's usage and triggers a render; in
particular cpu 150 stores 100 and cpu -30 stores 0. -/
theorem C4_updateMetric_clamps (s : MetricSet) (metric : String) (v : ℚ) (m : MetricName)
    (h : metricOfString metric = some m) :
    ((updateMetric s metric v).1.get m).usage = jsMax 0 (jsMin 100 v)
    ∧ (updateMetric s metric v).2 = true
    ∧ windowUpdatePerformanceMetric (some s) metric v = (some (updateMetric s metric v).1, true)
    ∧ (updateMetric initializeSimulatedData "cpu" 150).1.cpu.usage = 100
    ∧ (updateMetric initializeSimulatedData "cpu" (-30)).1.cpu.usage = 0 := by
  refine ⟨?_, ?_, ?_, by decide, by decide⟩
  · simp only [updateMetric, h]
    rw [get_set_eq]
  · simp [updateMetric, h]
  · simp [windowUpdatePerformanceMetric, updateMetric, h]

/-- C4 witness: the clamp evaluated at metric "cpu" and value 150 on the
simulated baseline. -/
theorem C4_witness :
    ((updateMetric initializeSimulatedData "cpu" 150).1.get MetricName.cpu).usage
      = jsMax 0 (jsMin 100 150) :=
  (C4_updateMetric_clamps initializeSimulatedData "cpu" 150 MetricName.cpu (by decide)).1

theorem updateDashboard_cons_none (s : MetricSet) (kv : String × PartialReading)
    (rest : List (String × PartialReading)) (hm : metricOfString kv.1 = none) :
    (updateDashboard s (kv :: rest)).1 = (updateDashboard s rest).1 := by
  simp [updateDashboard, List.foldl_cons, hm]

theorem updateDashboard_cons_some (s : MetricSet) (kv : String × PartialReading)
    (rest : List (String × PartialReading)) (m2 : MetricName)
    (hm : metricOfString kv.1 = some m2) :
    (updateDashboard s (kv :: rest)).1
      = (updateDashboard (s.set m2 (mergeReading (s.get m2) kv.2)) rest).1 := by
  simp [updateDashboard, List.foldl_cons, hm]

theorem updateDashboard_metric_frame (data : List (String × PartialReading)) :
    ∀ (s : MetricSet) (m : MetricName),
      (∀ kv ∈ data, ¬ metricOfString kv.1 = some m) →
      (updateDashboard s data).1.get m = s.get m := by
  induction data with
  | nil => intro s m _; rfl
  | cons kv rest ih =>
      intro s m h
      have hrest : ∀ kv2 ∈ rest, ¬ metricOfString kv2.1 = some m :=
        fun kv2 hk => h kv2 (List.mem_cons_of_mem _ hk)
      cases hm : metricOfString kv.1 with
      | none =>
          rw [updateDashboard_cons_none s kv rest hm]
          exact ih s m hrest
      | some m2 =>
          have hne : m ≠ m2 := by
            intro he
            exact h kv (List.mem_cons_self _ _) (by rw [hm, he])
          rw [updateDashboard_cons_some s kv rest m2 hm, ih _ m hrest,
            get_set_ne _ _ _ _ hne]

theorem updateDashboard_field_frame (f : MetricReading → ℚ) (pf : PartialReading → Option ℚ)
    (hc : ∀ r q, pf q = none → f (mergeReading r q) = f r)
    (data : List (String × PartialReading)) :
    ∀ (s : MetricSet) (m : MetricName),
      (∀ kv ∈ data, metricOfString kv.1 = some m → pf kv.2 = none) →
      f ((updateDashboard s data).1.get m) = f (s.get m) := by
  induction data with
  | nil => intro s m _; rfl
  | cons kv rest ih =>
      intro s m h
      have hrest : ∀ kv2 ∈ rest, metricOfString kv2.1 = some m → pf kv2.2 = none :=
        fun kv2 hk => h kv2 (List.mem_cons_of_mem _ hk)
      cases hm : metricOfString kv.1 with
      | none =>
          rw [updateDashboard_cons_none s kv rest hm]
          exact ih s m hrest
      | some m2 =>
          rw [updateDashboard_cons_some s kv rest m2 hm]
          by_cases he : m2 = m
          · subst he
            rw [ih _ m2 hrest, get_set_eq]
            exact hc _ _ (h kv (List.mem_cons_self _ _) hm)
          · rw [ih _ m hrest, get_set_ne _ _ _ _ (fun hh => he hh.symm)]

/-- C5: window.updateDashboard merges field-by-field and renders: for
every pushed partial MetricSet, a metric named by no entry is left
unchanged, and a field absent from every entry for a metric is left
unchanged on that metric (stated for each of the nine fields); a single
entry for a known metric merges exactly its present fields into that
metric and nothing else; in particular pushing only ram.used = 5
changes ram.used and nothing else. -/
theorem C5_merge_frame (s : MetricSet) (name : String) (p : PartialReading)
    (m m' : MetricName) (data : List (String × PartialReading)) :
    (updateDashboard s data).2 = true
    ∧ ((∀ kv ∈ data, ¬ metricOfString kv.1 = some m) →
        (updateDashboard s data).1.get m = s.get m)
    ∧ ((∀ kv ∈ data, metricOfString kv.1 = some m → kv.2.usage = none) →
        ((updateDashboard s data).1.get m).usage = (s.get m).usage)
    ∧ ((∀ kv ∈ data, metricOfString kv.1 = some m → kv.2.used = none) →
        ((updateDashboard s data).1.get m).used = (s.get m).used)
    ∧ ((∀ kv ∈ data, metricOfString kv.1 = some m → kv.2.free = none) →
        ((updateDashboard s data).1.get m).free = (s.get m).free)
    ∧ ((∀ kv ∈ data, metricOfString kv.1 = some m → kv.2.total = none) →
        ((updateDashboard s data).1.get m).total = (s.get m).total)
    ∧ ((∀ kv ∈ data, metricOfString kv.1 = some m → kv.2.temp = none) →
        ((updateDashboard s data).1.get m).temp = (s.get m).temp)
    ∧ ((∀ kv ∈ data, metricOfString kv.1 = some m → kv.2.memory = none) →
        ((updateDashboard s data).1.get m).memory = (s.get m).memory)
    ∧ ((∀ kv ∈ data, metricOfString kv.1 = some m → kv.2.cores = none) →
        ((updateDashboard s data).1.get m).cores = (s.get m).cores)
    ∧ ((∀ kv ∈ data, metricOfString kv.1 = some m → kv.2.threads = none) →
        ((updateDashboard s data).1.get m).threads = (s.get m).threads)
    ∧ ((∀ kv ∈ data, metricOfString kv.1 = some m → kv.2.freq = none) →
        ((updateDashboard s data).1.get m).freq = (s.get m).freq)
    ∧ (metricOfString name = some m →
        (updateDashboard s [(name, p)]).1.get m = mergeReading (s.get m) p)
    ∧ (metricOfString name = some m → m' ≠ m →
        (updateDashboard s [(name, p)]).1.get m' = s.get m')
    ∧ (metricOfString name = some m → p.usage = none →
        ((updateDashboard s [(name, p)]).1.get m).usage = (s.get m).usage)
    ∧ (updateDashboard s [("ram", { used := some 5 })]).1.ram.used = 5
    ∧ (updateDashboard s [("ram", { used := some 5 })]).1.ram.usage = s.ram.usage
    ∧ (updateDashboard s [("ram", { used := some 5 })]).1.ram.total = s.ram.total
    ∧ (updateDashboard s [("ram", { used := some 5 })]).1.disk = s.disk
    ∧ (updateDashboard s [("ram", { used := some 5 })]).1.gpu = s.gpu
    ∧ (updateDashboard s [("ram", { used := some 5 })]).1.proc = s.proc
    ∧ (updateDashboard s [("ram", { used := some 5 })]).1.cpu = s.cpu := by
  have hram : (updateDashboard s [("ram", { used := some 5 })]).1
      = s.set .ram (mergeReading (s.get .ram) { used := some 5 }) := by
    simp [updateDashboard, metricOfString]
  refine ⟨rfl, updateDashboard_metric_frame data s m, ?_, ?_, ?_, ?_, ?_, ?_, ?_, ?_, ?_,
    ?_, ?_, ?_, ?_, ?_, ?_, ?_, ?_, ?_, ?_⟩
  · exact updateDashboard_field_frame (fun r => r.usage) (fun q => q.usage)
      (fun r q hq => by simp [mergeReading, hq]) data s m
  · exact updateDashboard_field_frame (fun r => r.used) (fun q => q.used)
      (fun r q hq => by simp [mergeReading, hq]) data s m
  · exact updateDashboard_field_frame (fun r => r.free) (fun q => q.free)
      (fun r q hq => by simp [mergeReading, hq]) data s m
  · exact updateDashboard_field_frame (fun r => r.total) (fun q => q.total)
      (fun r q hq => by simp [mergeReading, hq]) data s m
  · exact updateDashboard_field_frame (fun r => r.temp) (fun q => q.temp)
      (fun r q hq => by simp [mergeReading, hq]) data s m
  · exact updateDashboard_field_frame (fun r => r.memory) (fun q => q.memory)
      (fun r q hq => by simp [mergeReading, hq]) data s m
  · exact updateDashboard_field_frame (fun r => r.cores) (fun q => q.cores)
      (fun r q hq => by simp [mergeReading, hq]) data s m
  · exact updateDashboard_field_frame (fun r => r.threads) (fun q => q.threads)
      (fun r q hq => by simp [mergeReading, hq]) data s m
  · exact updateDashboard_field_frame (fun r => r.freq) (fun q => q.freq)
      (fun r q hq => by simp [mergeReading, hq]) data s m
  · intro h
    simp only [updateDashboard, List.foldl, h]
    rw [get_set_eq]
  · intro h hne
    simp only [updateDashboard, List.foldl, h]
    rw [get_set_ne _ _ _ _ hne]
  · intro h hnone
    simp only [updateDashboard, List.foldl, h]
    rw [get_set_eq]
    simp [mergeReading, hnone]
  · rw [hram]
    rfl
  · rw [hram]
    rfl
  · rw [hram]
    rfl
  · rw [hram]
    rfl
  · rw [hram]
    rfl
  · rw [hram]
    rfl
  · rw [hram]
    rfl

/-- C5 witness: the frame conditions evaluated at the simulated baseline
for a two-entry push touching ram and gpu — cpu is unchanged and
ram.usage is unchanged — and the single-entry merge evaluated for the
ram entry. -/
theorem C5_witness :
    (updateDashboard initializeSimulatedData
        [("ram", { used := some 5 }), ("gpu", { temp := some 70 })]).1.get MetricName.cpu
      = initializeSimulatedData.get MetricName.cpu
    ∧ ((updateDashboard initializeSimulatedData
          [("ram", { used := some 5 }), ("gpu", { temp := some 70 })]).1.get MetricName.ram).usage
        = (initializeSimulatedData.get MetricName.ram).usage
    ∧ (updateDashboard initializeSimulatedData [("ram", { used := some 5 })]).1.get MetricName.ram
        = mergeReading (initializeSimulatedData.get MetricName.ram) { used := some 5 } :=
  ⟨(C5_merge_frame initializeSimulatedData "ram" { used := some 5 } MetricName.cpu MetricName.cpu
      [("ram", { used := some 5 }), ("gpu", { temp := some 70 })]).2.1 (by decide),
   (C5_merge_frame initializeSimulatedData "ram" { used := some 5 } MetricName.ram MetricName.cpu
      [("ram", { used := some 5 }), ("gpu", { temp := some 70 })]).2.2.1 (by decide),
   (C5_merge_frame initializeSimulatedData "ram" { used := some 5 } MetricName.ram MetricName.cpu
      []).2.2.2.2.2.2.2.2.2.2.2.1 (by decide)⟩

/-- C6: on a refresh tick in which no step throws, the newly stored cpu
usage is exactly the spec formula round(0.7 * P + 0.3 * E) where P is
the prior stored cpu usage and E is the busy-loop estimate clamped to
[0,100]. -/
theorem C6_cpu_smoothing (env : TickEnv) (s : MetricSet)
    (h : (env.cpuFails || env.memFails || env.simFails || env.renderFails) = false) :
    (updatePerformanceMetrics env s).1.cpu.usage
      = spec_cpuSmoothed s.cpu.usage (clamp 0 100 env.cpuRaw) := by
  simp only [Bool.or_eq_false_iff] at h
  obtain ⟨⟨⟨h1, h2⟩, h3⟩, h4⟩ := h
  simp only [updatePerformanceMetrics, h1, h2, h3, h4, Bool.false_eq_true, if_false]
  rw [show (simulateOtherMetrics env (measureMemoryUsage env (measureCPUUsage env s))).cpu
        = (measureMemoryUsage env (measureCPUUsage env s)).cpu from
      simulateOtherMetrics_cpu env _,
    measureMemoryUsage_cpu env _, measureCPUUsage_cpu_usage env s]
  rw [spec_cpuSmoothed, show s.cpu.usage * (7 / 10) + clamp 0 100 env.cpuRaw * (3 / 10)
        = 7 / 10 * s.cpu.usage + 3 / 10 * clamp 0 100 env.cpuRaw from by ring]

/-- C6 witness: the smoothing identity evaluated at the simulated
baseline with a concrete estimate. -/
theorem C6_witness :
    (updatePerformanceMetrics { cpuRaw := 50 } initializeSimulatedData).1.cpu.usage
      = spec_cpuSmoothed initializeSimulatedData.cpu.usage
          (clamp 0 100 ({ cpuRaw := 50 } : TickEnv).cpuRaw) :=
  C6_cpu_smoothing { cpuRaw := 50 } initializeSimulatedData rfl

/-- C7: every refresh tick renders, whatever combination of steps
throws; whichever of the four protected steps — CPU estimate, memory
read, simulation or render — throws first, the tick degrades to the
fallback simulation applied to the state the throw left behind; and the
fallback nudges every metric except disk to a whole number in the
clamped band [10,90] while leaving disk untouched, so an error can
neither stop the loop nor leave the DOM un-rendered. -/
theorem C7_fallback_tick (env : TickEnv) (s : MetricSet) (m : MetricName) :
    (updatePerformanceMetrics env s).2 = true
    ∧ (env.cpuFails = true → (updatePerformanceMetrics env s).1 = simulateAllMetrics env s)
    ∧ (env.cpuFails = false → env.memFails = true →
        (updatePerformanceMetrics env s).1 = simulateAllMetrics env (measureCPUUsage env s))
    ∧ (env.cpuFails = false → env.memFails = false → env.simFails = true →
        (updatePerformanceMetrics env s).1
          = simulateAllMetrics env (measureMemoryUsage env (measureCPUUsage env s)))
    ∧ (env.cpuFails = false → env.memFails = false → env.simFails = false →
        env.renderFails = true →
        (updatePerformanceMetrics env s).1
          = simulateAllMetrics env
              (simulateOtherMetrics env (measureMemoryUsage env (measureCPUUsage env s))))
    ∧ (simulateAllMetrics env s).disk = s.disk
    ∧ (m ≠ MetricName.disk →
        isWhole ((simulateAllMetrics env s).get m).usage
        ∧ 10 ≤ ((simulateAllMetrics env s).get m).usage
        ∧ ((simulateAllMetrics env s).get m).usage ≤ 90) := by
  refine ⟨?_, ?_, ?_, ?_, ?_, rfl, ?_⟩
  · unfold updatePerformanceMetrics
    split_ifs <;> rfl
  · intro h
    simp [updatePerformanceMetrics, h]
  · intro h1 h2
    simp [updatePerformanceMetrics, h1, h2]
  · intro h1 h2 h3
    simp [updatePerformanceMetrics, h1, h2, h3]
  · intro h1 h2 h3 h4
    simp [updatePerformanceMetrics, h1, h2, h3, h4]
  · intro hm
    have hband : ∀ u d : ℚ,
        isWhole ((jsRound (clamp 10 90 (u + d)) : ℤ) : ℚ)
        ∧ 10 ≤ ((jsRound (clamp 10 90 (u + d)) : ℤ) : ℚ)
        ∧ ((jsRound (clamp 10 90 (u + d)) : ℤ) : ℚ) ≤ 90 := by
      intro u d
      have hb := round_clamp_band 10 90 (u + d) (by norm_num)
      refine ⟨hb.1, ?_, ?_⟩
      · exact_mod_cast hb.2.1
      · exact_mod_cast hb.2.2
    cases m with
    | disk => exact absurd rfl hm
    | gpu => exact hband s.gpu.usage env.fbGpu
    | proc => exact hband s.proc.usage env.fbProc
    | ram => exact hband s.ram.usage env.fbRam
    | cpu => exact hband s.cpu.usage env.fbCpu

/-- C7 witness: the fallback properties evaluated at the baseline with a
tick whose memory step throws — the tick renders and equals the fallback
applied after the CPU step — checked on the cpu metric's band. -/
theorem C7_witness :
    (updatePerformanceMetrics { memFails := true } initializeSimulatedData).2 = true
    ∧ (updatePerformanceMetrics { memFails := true } initializeSimulatedData).1
        = simulateAllMetrics { memFails := true }
            (measureCPUUsage { memFails := true } initializeSimulatedData)
    ∧ isWhole ((simulateAllMetrics { memFails := true } initializeSimulatedData).get
        MetricName.cpu).usage :=
  ⟨(C7_fallback_tick { memFails := true } initializeSimulatedData MetricName.cpu).1,
   (C7_fallback_tick { memFails := true } initializeSimulatedData MetricName.cpu).2.2.1 rfl rfl,
   ((C7_fallback_tick { memFails := true } initializeSimulatedData MetricName.cpu).2.2.2.2.2.2
      (by decide)).1⟩

/-- C8 counterexample: with the webview channel absent, a click on the
ip-flush control posts nothing and logs nothing — its handler has no
else branch — so the claim that every action control logs the failed
attempt is false. -/
theorem C8_counterexample :
    clickControl false "data-action" "ip-flush" = ([], 0)
    ∧ clickControl false "data-action" "full-clean" = ([], 1) := by
  refine ⟨by decide, by decide⟩

/-- C8 (amended): when the webview channel is absent, clicking any
action control posts no message and throws no error, but only the
full-clean and clean-ram controls log the failure (once each, from
their first registered handlers); every other control is a silent
no-op. -/
theorem C8_channel_absent_amended (attr value : String) :
    (clickControl false attr value).1 = []
    ∧ (clickControl false attr value).2
        = (if attr = "data-action" ∧ (value = "full-clean" ∨ value = "clean-ram")
            then 1 else 0) := by
  refine ⟨rfl, ?_⟩
  by_cases h1 : attr = "data-action"
  · subst h1
    by_cases h2 : value = "full-clean"
    · subst h2
      decide
    · by_cases h3 : value = "clean-ram"
      · subst h3
        decide
      · have hb2 : ("full-clean" == value) = false :=
          beq_eq_false_iff_ne.mpr fun hh => h2 hh.symm
        have hb3 : ("clean-ram" == value) = false :=
          beq_eq_false_iff_ne.mpr fun hh => h3 hh.symm
        simp only [clickControl, Bool.false_eq_true, if_false, List.filter_filter]
        simp [actionHandlers, List.filter_cons, hb2, hb3, h2, h3]
  · have hb1 : ("data-action" == attr) = false :=
      beq_eq_false_iff_ne.mpr fun hh => h1 hh.symm
    simp only [clickControl, Bool.false_eq_true, if_false, List.filter_filter]
    simp [actionHandlers, List.filter_cons, hb1, h1]

/-- C9: clicking a valid page identifier leaves exactly one button and
exactly one page active — both carrying the clicked identifier — and
the operation is idempotent: switching again to the same identifier
from the resulting state reproduces that state. -/
theorem C9_nav_exclusive (t : String) (btns pages : List (String × Bool))
    (hb : existsId btns t = true) (hp : existsId pages t = true) :
    countActive (switchPage t btns pages).1 = 1
    ∧ countActive (switchPage t btns pages).2 = 1
    ∧ (∀ p ∈ (switchPage t btns pages).1, p.2 = true → p.1 = t)
    ∧ (∀ p ∈ (switchPage t btns pages).2, p.2 = true → p.1 = t)
    ∧ switchPage t (switchPage t btns pages).1 (switchPage t btns pages).2
        = switchPage t btns pages := by
  have hcond : (existsId btns t && existsId pages t) = true := by
    rw [hb, hp]
    rfl
  have hsp : switchPage t btns pages
      = (activateFirst (deactivateAll btns) t, activateFirst (deactivateAll pages) t) := by
    simp [switchPage, hcond]
  have hb' : existsId (deactivateAll btns) t = true := by
    rw [existsId_deactivateAll]
    exact hb
  have hp' : existsId (deactivateAll pages) t = true := by
    rw [existsId_deactivateAll]
    exact hp
  refine ⟨?_, ?_, ?_, ?_, ?_⟩
  · rw [hsp]
    exact countActive_activateFirst _ t (fun p hq => mem_deactivateAll btns p hq) hb'
  · rw [hsp]
    exact countActive_activateFirst _ t (fun p hq => mem_deactivateAll pages p hq) hp'
  · rw [hsp]
    exact active_of_activateFirst _ t (fun p hq => mem_deactivateAll btns p hq)
  · rw [hsp]
    exact active_of_activateFirst _ t (fun p hq => mem_deactivateAll pages p hq)
  · rw [hsp]
    have hc2 : (existsId (activateFirst (deactivateAll btns) t) t
        && existsId (activateFirst (deactivateAll pages) t) t) = true := by
      rw [existsId_activateFirst, existsId_deactivateAll,
        existsId_activateFirst, existsId_deactivateAll, hb, hp]
      rfl
    simp only [switchPage, hc2, if_true]
    rw [deactivateAll_activateFirst, deactivateAll_idem,
      deactivateAll_activateFirst, deactivateAll_idem]

/-- C9 witness: the exclusivity evaluated on a concrete two-entry view
switching to "home". -/
theorem C9_witness :
    countActive (switchPage "home" [("home", false), ("perf", true)]
        [("home", false), ("perf", true)]).1 = 1
    ∧ switchPage "home"
        (switchPage "home" [("home", false), ("perf", true)] [("home", false), ("perf", true)]).1
        (switchPage "home" [("home", false), ("perf", true)] [("home", false), ("perf", true)]).2
      = switchPage "home" [("home", false), ("perf", true)] [("home", false), ("perf", true)] :=
  ⟨(C9_nav_exclusive "home" [("home", false), ("perf", true)] [("home", false), ("perf", true)]
      (by decide) (by decide)).1,
   (C9_nav_exclusive "home" [("home", false), ("perf", true)] [("home", false), ("perf", true)]
      (by decide) (by decide)).2.2.2.2⟩

/-- C10: with the webview channel available, one click on the full-clean
control posts "full-clean" twice and one click on the clean-ram control
posts "clean-ram" twice — each has two registered click handlers — while
every other catalogued control posts its message exactly once. -/
theorem C10_dup_handlers :
    clickControl true "data-action" "full-clean" = (["full-clean", "full-clean"], 0)
    ∧ clickControl true "data-action" "clean-ram" = (["clean-ram", "clean-ram"], 0)
    ∧ ∀ h ∈ actionHandlers,
        ¬(h.attr = "data-action" ∧ (h.value = "full-clean" ∨ h.value = "clean-ram")) →
          (clickControl true h.attr h.value).1 = [h.message] := by
  refine ⟨by decide, by decide, by decide⟩

/-- C10 witness: the single-post property evaluated at the ip-flush
handler. -/
theorem C10_witness :
    (clickControl true "data-action" "ip-flush").1 = ["ip-flush"] :=
  C10_dup_handlers.2.2
    { attr := "data-action", value := "ip-flush", message := "ip-flush",
      logsWhenUnavailable := false }
    (by decide) (by decide)
